import Mathlib

/-!
Shallow embedding of `plant_disease_api.py`, the single source file of the
plant-disease detection service, together with theorems settling the
specification claims about it.

Conventions of the embedding:
* Python floats are modelled as `ℚ` (the code performs only comparisons,
  subtraction and division by 255 on them, all exact here).
* Timestamps (`time.time()`) are explicit `ℚ` parameters.
* Fallible code (`raise HTTPException`) is modelled with `Except`.
* External library calls (PIL `resize`, image decoding, `psutil` metrics,
  `tf.keras` model loading) are modelled as explicit parameters, since their
  behaviour is outside the repository; the surrounding control flow is
  translated from the source.
-/

namespace PlantDisease

/-- `MAX_FILE_SIZE = 10 * 1024 * 1024` (source line 64). -/
def MAX_FILE_SIZE : Nat := 10 * 1024 * 1024

/-- `RATE_LIMIT = 100` requests per minute (source line 65). -/
def RATE_LIMIT : Nat := 100

/-- `CONFIDENCE_THRESHOLD = 0.2` (source line 63), written as the reduced
fraction `1/5` in lowest terms; `CONFIDENCE_THRESHOLD_eq` below identifies it
with `1/5`. -/
def CONFIDENCE_THRESHOLD : ℚ := Rat.mk' 1 5

/-- `ALLOWED_IMAGE_TYPES = ['image/jpeg', 'image/png', 'image/jpg']` (source line 67). -/
def ALLOWED_IMAGE_TYPES : List String := ["image/jpeg", "image/png", "image/jpg"]

/-- `MODEL_PATH`: the `.h5` artifact path (source line 60; the directory part
is irrelevant to the claims, we keep the file name). -/
def MODEL_PATH : String := "plant_disease_model.h5"

/-- `MODEL_PATH_KERAS`: the `.keras` artifact path (source line 61). -/
def MODEL_PATH_KERAS : String := "plant_disease_model.keras"

/-- The `DISEASE_CLASSES` dict (source lines 70-96): a partial map from class
index to disease label, with exactly the keys "0".."24".  Lookup of a missing
key (a `KeyError` in Python) is `none`. -/
def DISEASE_CLASSES : Nat → Option String := fun i =>
  match i with
  | 0 => some "Apple___Apple_scab"
  | 1 => some "Apple___Black_rot"
  | 2 => some "Apple___Cedar_apple_rust"
  | 3 => some "Apple___healthy"
  | 4 => some "Corn_(maize)___Cercospora_leaf_spot Gray_leaf_spot"
  | 5 => some "Corn_(maize)___Common_rust_"
  | 6 => some "Corn_(maize)___Northern_Leaf_Blight"
  | 7 => some "Corn_(maize)___healthy"
  | 8 => some "Grape___Black_rot"
  | 9 => some "Grape___Esca_(Black_Measles)"
  | 10 => some "Grape___Leaf_blight_(Isariopsis_Leaf_Spot)"
  | 11 => some "Grape___healthy"
  | 12 => some "Potato___Early_blight"
  | 13 => some "Potato___Late_blight"
  | 14 => some "Potato___healthy"
  | 15 => some "Tomato___Bacterial_spot"
  | 16 => some "Tomato___Early_blight"
  | 17 => some "Tomato___Late_blight"
  | 18 => some "Tomato___Leaf_Mold"
  | 19 => some "Tomato___Septoria_leaf_spot"
  | 20 => some "Tomato___Spider_mites Two-spotted_spider_mite"
  | 21 => some "Tomato___Target_Spot"
  | 22 => some "Tomato___Tomato_Yellow_Leaf_Curl_Virus"
  | 23 => some "Tomato___Tomato_mosaic_virus"
  | 24 => some "Tomato___healthy"
  | _ => none

/-! ## Image Validator (source lines 151-163)

`validate_image` raises `HTTPException(400, ...)` first when
`file.size > MAX_FILE_SIZE`, then when
`file.content_type not in ALLOWED_IMAGE_TYPES`; otherwise it returns `None`.
The two distinct error messages are modelled as the two error kinds of the
spec's taxonomy. -/

/-- The spec's `ValidationError` taxonomy for the two `HTTPException(400)`
branches of `validate_image`. -/
inductive ValidationError where
  | FileTooLarge
  | UnsupportedMediaType
deriving DecidableEq, Repr

/-- `validate_image` (source lines 151-163): size ceiling checked first, then
the declared media type against the allow-list. -/
def validate_image (size : Nat) (content_type : String) : Except ValidationError Unit :=
  if MAX_FILE_SIZE < size then
    .error .FileTooLarge
  else if content_type ∉ ALLOWED_IMAGE_TYPES then
    .error .UnsupportedMediaType
  else
    .ok ()

/-! ## Rate Limiter (source lines 98-114)

`check_rate_limit` acts on `request_times[client_ip]`, the per-identity list
of recorded request timestamps (created as `[]` on first sight of the
identity).  The claims are all per-identity, so the state we track is that one
list; `current_time` is the value of `time.time()` at the call. -/

/-- One call of `check_rate_limit` (source lines 101-114) for a fixed
identity: purge timestamps `t` with `current_time - t >= 60`, reject when the
remaining count reaches `RATE_LIMIT`, otherwise append `current_time` and
admit.  Returns the admission verdict and the new stored list. -/
def check_rate_limit (current_time : ℚ) (window : List ℚ) : Bool × List ℚ :=
  let purged := window.filter (fun t => decide (current_time - t < 60))
  if RATE_LIMIT ≤ purged.length then
    (false, purged)
  else
    (true, purged ++ [current_time])

/-- A sequence of `check_rate_limit` calls for one identity, at the given
successive clock readings, threading the stored window; returns the list of
verdicts and the final window. -/
def runCalls (times : List ℚ) (window : List ℚ) : List Bool × List ℚ :=
  match times with
  | [] => ([], window)
  | t :: rest =>
    let step := check_rate_limit t window
    let tail := runCalls rest step.2
    (step.1 :: tail.1, tail.2)

/-! ## Preprocessor (source lines 165-177)

`preprocess_image` receives the `PIL.Image` decoded from the upload bytes,
resizes it to `IMG_SIZE = (128, 128)` with the LANCZOS filter, converts it to
a numpy array, divides by 255 and prepends a batch axis.  We model a PIL image
as its mode together with its pixel grid (rows of columns of per-channel
8-bit values), and a numpy array as a nested list tree of rationals. -/

/-- PIL image modes relevant here: `L` (8-bit grayscale), `RGB`, `RGBA`.
`np.array` of an `L`-mode image is 2-dimensional; of `RGB`/`RGBA` it is
3-dimensional with 3 resp. 4 channels. -/
inductive PILMode where
  | L
  | RGB
  | RGBA
deriving DecidableEq, Repr

/-- Number of per-pixel channel values `np.array` sees for a mode. -/
def PILMode.channels : PILMode → Nat
  | .L => 1
  | .RGB => 3
  | .RGBA => 4

/-- A decoded PIL image: mode plus pixel grid, `px` being `height` rows of
`width` columns, each column a list of `mode.channels` values in `0..255`. -/
structure PILImage where
  mode : PILMode
  height : Nat
  width : Nat
  px : List (List (List Nat))
deriving Repr

/-- Well-formedness of a `PILImage`: the grid is rectangular with the declared
dimensions and channel count, and every channel value is an 8-bit value. -/
def PILImage.WF (img : PILImage) : Prop :=
  img.px.length = img.height ∧
  ∀ row ∈ img.px, row.length = img.width ∧
    ∀ cell ∈ row, cell.length = img.mode.channels ∧ ∀ v ∈ cell, v ≤ 255

/-- A numpy array, as numpy holds it: the shape, and the entries flattened in
row-major order. -/
structure NDArray where
  shape : List Nat
  data : List ℚ
deriving Repr, DecidableEq

/-- Every entry of the array lies in the interval `[lo, hi]`. -/
def NDArray.EntriesIn (lo hi : ℚ) (a : NDArray) : Prop :=
  ∀ x ∈ a.data, lo ≤ x ∧ x ≤ hi

/-- `np.array(pil_image)`: an `L`-mode image becomes a 2-d array of its
single channel values; a multi-channel mode becomes a 3-d array with the
channel values along the last axis.  As numpy does, the shape is read off the
lengths of the nested data (outer length, first row, first cell). -/
def np_array (img : PILImage) : NDArray :=
  match img.mode with
  | .L =>
    { shape := [img.px.length, (img.px.headD []).length],
      data := img.px.flatten.map (fun cell => ((cell.getD 0 0 : Nat) : ℚ)) }
  | _ =>
    { shape := [img.px.length, (img.px.headD []).length,
                ((img.px.headD []).headD []).length],
      data := (img.px.flatten.flatten.map (fun v => ((v : Nat) : ℚ))) }

/-- Elementwise `a / 255.0`: the shape is kept, every entry is divided. -/
def NDArray.div255 (a : NDArray) : NDArray :=
  { shape := a.shape, data := a.data.map (fun x => x / 255) }

/-- `np.expand_dims(a, axis=0)`: a leading axis of extent 1. -/
def expand_dims0 (a : NDArray) : NDArray :=
  { shape := 1 :: a.shape, data := a.data }

/-- The behaviour `PIL.Image.resize((w, h), LANCZOS)` guarantees and the
embedding relies on: the result has the requested dimensions, keeps the mode,
and is a well-formed 8-bit image.  The pixel values themselves are the
resampling filter's business and play no role in the claims. -/
def ResizeSpec (resize : PILImage → Nat × Nat → PILImage) : Prop :=
  ∀ img w h, (resize img (w, h)).mode = img.mode ∧
    (resize img (w, h)).width = w ∧ (resize img (w, h)).height = h ∧
    (resize img (w, h)).WF

/-- `preprocess_image` (source lines 165-177), parameterized by the PIL
`resize` implementation: resize to `(128, 128)`, convert to a numpy array,
divide by 255, prepend the batch axis.  (The source wraps this in a
try/except that cannot fire on a well-formed decoded image; the happy path is
what the claims are about.) -/
def preprocess_image (resize : PILImage → Nat × Nat → PILImage) (pil_image : PILImage) : NDArray :=
  expand_dims0 ((np_array (resize pil_image (128, 128))).div255)

/-- `prepare` of the spec: decode the raw upload bytes (an external decoder,
passed in) and run `preprocess_image` on the result; `none` when the bytes do
not decode. -/
def prepare (decode : List Nat → Option PILImage) (resize : PILImage → Nat × Nat → PILImage)
    (raw_bytes : List Nat) : Option NDArray :=
  (decode raw_bytes).map (preprocess_image resize)

/-- A concrete stand-in resampler used to evaluate the embedding on closed
inputs: it fills the requested grid with zeros in the image's own mode, which
satisfies `ResizeSpec` (the filter's numeric output is irrelevant to shape
claims). -/
def resizeConst (img : PILImage) (wh : Nat × Nat) : PILImage :=
  { mode := img.mode, height := wh.2, width := wh.1,
    px := List.replicate wh.2 (List.replicate wh.1 (List.replicate img.mode.channels 0)) }

/-! ## Response Composer (source lines 185-196)

`get_top_predictions` computes `np.argsort(predictions[0])[-top_k:][::-1]`
and maps each index through `DISEASE_CLASSES[str(idx)]` and
`predictions[0][idx]`.  `np.argsort` sorts the indices of the vector by
ascending value; its default sort kind leaves the relative order of equal
values unspecified, and we model it as the stable ascending sort — the
canonical deterministic reading — which is the sort of the indices by the
value-then-index lexicographic order.  `v` below is `predictions[0]`, the
probability vector. -/

/-- The value-then-index lexicographic order underlying the stable ascending
argsort of `v`: `i` before `j` when `v[i] < v[j]`, or the values are equal and
`i ≤ j`.  On the distinct indices `0..v.length-1` a stable ascending sort by
value is exactly a sort by this linear order. -/
def argsortRel (v : List ℚ) (i j : Nat) : Prop :=
  v.getD i 0 < v.getD j 0 ∨ (v.getD i 0 = v.getD j 0 ∧ i ≤ j)

instance (v : List ℚ) : DecidableRel (argsortRel v) :=
  fun i j => inferInstanceAs (Decidable (_ ∨ _))

instance (v : List ℚ) : IsTotal Nat (argsortRel v) where
  total i j := by
    rcases lt_trichotomy (v.getD i 0) (v.getD j 0) with h | h | h
    · exact .inl (.inl h)
    · rcases Nat.le_total i j with hij | hij
      · exact .inl (.inr ⟨h, hij⟩)
      · exact .inr (.inr ⟨h.symm, hij⟩)
    · exact .inr (.inl h)

instance (v : List ℚ) : IsTrans Nat (argsortRel v) where
  trans i j k := by
    rintro (h₁ | ⟨e₁, l₁⟩) (h₂ | ⟨e₂, l₂⟩)
    · exact .inl (h₁.trans h₂)
    · exact .inl (e₂ ▸ h₁)
    · exact .inl (e₁ ▸ h₂)
    · exact .inr ⟨e₁.trans e₂, l₁.trans l₂⟩

/-- `np.argsort(v)` under the stable model: the indices `0..v.length-1`
sorted by ascending value, equal values keeping their index order, i.e.
sorted by `argsortRel v`. -/
def argsort (v : List ℚ) : List Nat :=
  (List.range v.length).insertionSort (argsortRel v)

/-- `np.argsort(predictions[0])[-top_k:][::-1]` (source line 188): the last
`top_k` entries of the ascending argsort, reversed. -/
def topIndices (v : List ℚ) (top_k : Nat) : List Nat :=
  ((argsort v).drop (v.length - top_k)).reverse

/-- `get_top_predictions` (source lines 185-196): the top-`top_k` indices,
each mapped to its `DISEASE_CLASSES` label and its probability. -/
def get_top_predictions (v : List ℚ) (top_k : Nat) : List (Option String × ℚ) :=
  (topIndices v top_k).map (fun idx => (DISEASE_CLASSES idx, v.getD idx 0))

/-! ## The `/predict` response shaping (source lines 262-285)

After inference the endpoint computes the top predictions, takes the first as
`(predicted_class, confidence)`, and returns one of two success dictionaries:
with a `warning` field when `confidence < CONFIDENCE_THRESHOLD`, without it
otherwise.  Neither branch raises.  An `HTTPException` elsewhere in the
handler is modelled by the `Except` error carrying the HTTP status code. -/

/-- The JSON body of a successful `/predict` response. -/
structure PredictResponse where
  predicted_class : Option String
  confidence : ℚ
  top_3_predictions : List (Option String × ℚ)
  all_predictions : List (Option String × ℚ)
  processing_time : ℚ
  warning : Option String
deriving Repr

/-- The advisory string of the low-confidence branch (source line 276). -/
def LOW_CONFIDENCE_WARNING : String :=
  "Low confidence prediction. Please try with a clearer image."

/-- `all_predictions` (source lines 274 and 283): every class index of the
probability vector mapped to its label and probability. -/
def all_predictions (v : List ℚ) : List (Option String × ℚ) :=
  (List.range v.length).map (fun i => (DISEASE_CLASSES i, v.getD i 0))

/-- The response shaping of `/predict` after inference (source lines
262-285): `v` is `predictions[0]`, `processing_time` the measured inference
duration.  `top_predictions[0]` on an empty list would raise (`IndexError`,
mapped to a 500 by the catch-all); for a non-empty vector both confidence
branches return a success body, the low-confidence one with the advisory
`warning` field. -/
def predictRespond (v : List ℚ) (processing_time : ℚ) : Except Nat PredictResponse :=
  let top_predictions := get_top_predictions v 3
  match top_predictions with
  | [] => .error 500
  | (predicted_class, confidence) :: _ =>
    if confidence < CONFIDENCE_THRESHOLD then
      .ok { predicted_class := predicted_class, confidence := confidence,
            top_3_predictions := top_predictions,
            all_predictions := all_predictions v,
            processing_time := processing_time,
            warning := some LOW_CONFIDENCE_WARNING }
    else
      .ok { predicted_class := predicted_class, confidence := confidence,
            top_3_predictions := top_predictions,
            all_predictions := all_predictions v,
            processing_time := processing_time,
            warning := none }

/-! ## Health Reporter (source lines 206-227 and 296-302)

`get_system_metrics` samples `psutil`; the three sampled percentages are
passed in as parameters.  `/health` raises `RuntimeError` when the module
global `model is None`, which the surrounding try/except maps to
`HTTPException(500)`; otherwise it returns the healthy body. -/

/-- The `system_metrics` dictionary of `get_system_metrics` (source lines
296-302), from the three `psutil` samples taken at call time. -/
structure SystemMetrics where
  cpu_percent : ℚ
  memory_percent : ℚ
  disk_percent : ℚ
deriving Repr, DecidableEq

/-- `get_system_metrics` (source lines 296-302), the sampling itself being
external input. -/
def get_system_metrics (cpu mem disk : ℚ) : SystemMetrics :=
  { cpu_percent := cpu, memory_percent := mem, disk_percent := disk }

/-- The JSON body of a successful `/health` response. -/
structure HealthBody where
  status : String
  model_loaded : Bool
  system_metrics : SystemMetrics
deriving Repr, DecidableEq

/-- The `/health` endpoint (source lines 206-227) over an abstract model
type `M`: error 500 when the model global is unset, otherwise the healthy
body with the metrics snapshot. -/
def health {M : Type} (model : Option M) (cpu mem disk : ℚ) : Except Nat HealthBody :=
  match model with
  | none => .error 500
  | some _ => .ok { status := "healthy", model_loaded := true,
                    system_metrics := get_system_metrics cpu mem disk }

/-! ## Classifier Adapter: model loading (source lines 116-149 and 198-204)

`load_model_safely` walks `[MODEL_PATH, MODEL_PATH_KERAS]` in order.  For
each path: a missing file is skipped (without touching `last_error`); a load
attempt that raises, yields a non-`tf.keras.Model` object, or fails to
compile records the error string and continues; a successful load returns the
model.  If the loop ends, `RuntimeError` carrying the last error is raised.
At module import (startup) the result is bound to the global `model`; any
failure re-raises, so the service never starts serving. -/

/-- The outcome of attempting one candidate artifact path, the file system
and `tf.keras` being external: the file is missing, or loading fails with an
error message (load raised, the object was not a Keras model, or compiling
raised), or a model is obtained. -/
inductive PathOutcome (M : Type) where
  | missing
  | loadFailure (msg : String)
  | loaded (m : M)

/-- The loop body of `load_model_safely` over the remaining candidate paths,
threading `last_error` (source lines 121-149). -/
def loadLoop {M : Type} (attempt : String → PathOutcome M) :
    List String → Option String → Except (Option String) M
  | [], last_error => .error last_error
  | p :: rest, last_error =>
    match attempt p with
    | .missing => loadLoop attempt rest last_error
    | .loadFailure msg => loadLoop attempt rest (some msg)
    | .loaded m => .ok m

/-- `load_model_safely` (source lines 116-149): try `MODEL_PATH` then
`MODEL_PATH_KERAS`; on success return the loaded model, otherwise raise
`RuntimeError` carrying the last error (`none` when every file was missing). -/
def load_model_safely {M : Type} (attempt : String → PathOutcome M) : Except (Option String) M :=
  loadLoop attempt [ MODEL_PATH, MODEL_PATH_KERAS] none

/-- The module-level startup (source lines 198-204): the service reaches a
serving state holding the model exactly when `load_model_safely` succeeds;
otherwise the `RuntimeError` propagates out of the module import and no
serving state exists. -/
def startup {M : Type} (attempt : String → PathOutcome M) : Except (Option String) M :=
  load_model_safely attempt

/-! ## Basic lemmas -/

/-- `CONFIDENCE_THRESHOLD` is the rational `1/5`, i.e. the source's `0.2`. -/
theorem CONFIDENCE_THRESHOLD_eq : CONFIDENCE_THRESHOLD = 1/5 := by
  rw [CONFIDENCE_THRESHOLD, Rat.mk'_eq_divInt, Rat.divInt_eq_div]
  norm_num

/-! ## Claim C2: the validator's acceptance condition -/

/-- C2 counterexample: the upload declaring the media type `image/jpg` — a
string outside the claim's two-element allow-list of the JPEG and PNG media
types — is accepted by `validate_image`, not rejected with
`UnsupportedMediaType`: the source's allow-list has a third entry. -/
theorem C2_counterexample :
    validate_image 0 "image/jpg" = .ok () ∧
    "image/jpg" ∉ ["image/jpeg", "image/png"] := by
  exact ⟨rfl, by decide⟩

/-- C2 (amended): `validate_image` succeeds exactly when the byte size is at
most `MAX_FILE_SIZE` and the declared type is in the source's three-entry
allow-list `ALLOWED_IMAGE_TYPES = [image/jpeg, image/png, image/jpg]`; it
fails with `FileTooLarge` exactly when the size is strictly greater than the
ceiling, and with `UnsupportedMediaType` exactly when the size is within the
ceiling but the declared type is outside that allow-list, regardless of
content. -/
theorem C2_validate_characterization (size : Nat) (content_type : String) :
    (validate_image size content_type = .ok () ↔
      size ≤ MAX_FILE_SIZE ∧ content_type ∈ ALLOWED_IMAGE_TYPES) ∧
    (validate_image size content_type = .error .FileTooLarge ↔
      MAX_FILE_SIZE < size) ∧
    (validate_image size content_type = .error .UnsupportedMediaType ↔
      size ≤ MAX_FILE_SIZE ∧ content_type ∉ ALLOWED_IMAGE_TYPES) := by
  by_cases hs : MAX_FILE_SIZE < size
  · have hs' : ¬ size ≤ MAX_FILE_SIZE := not_le.mpr hs
    simp [validate_image, hs, hs']
  · have hs' : size ≤ MAX_FILE_SIZE := not_lt.mp hs
    by_cases ht : content_type ∈ ALLOWED_IMAGE_TYPES
    · simp [validate_image, hs, hs', ht]
    · simp [validate_image, hs, hs', ht]

/-- C2 witness: a 0-byte `image/jpeg` upload is accepted, through the amended
characterization. -/
theorem C2_witness : validate_image 0 "image/jpeg" = .ok () :=
  (C2_validate_characterization 0 "image/jpeg").1.mpr (by decide)

/-! ## Claim C10: the size ceiling is checked before the media type -/

/-- C10: for any upload that both exceeds the ceiling and declares a
disallowed media type, `validate_image` reports `FileTooLarge`, never
`UnsupportedMediaType`: the size branch comes first in the source. -/
theorem C10_size_checked_first (size : Nat) (content_type : String)
    (hsize : MAX_FILE_SIZE < size) (htype : content_type ∉ ALLOWED_IMAGE_TYPES) :
    validate_image size content_type = .error .FileTooLarge ∧
    validate_image size content_type ≠ .error .UnsupportedMediaType := by
  unfold validate_image
  rw [if_pos hsize]
  refine ⟨rfl, fun he => ?_⟩
  exact absurd (Except.error.inj he) (by decide)

/-- C10 witness: an 11-MB `text/plain` upload, which violates both checks, is
reported as `FileTooLarge`. -/
theorem C10_witness :
    MAX_FILE_SIZE < 11534336 ∧ "text/plain" ∉ ALLOWED_IMAGE_TYPES ∧
    validate_image 11534336 "text/plain" = .error .FileTooLarge :=
  ⟨by decide, by decide,
    (C10_size_checked_first 11534336 "text/plain" (by decide) (by decide)).1⟩

/-! ## Claim C5: preprocessing determinism -/

/-- C5: `prepare` is deterministic — two calls on identical input bytes
yield identical tensors.  The embedding of the preprocessing pipeline is a
pure function of its input precisely because the source reads no ambient
state in it (no randomness, clock, or global mutation), so the two-run
equality holds for every decoder and resampler. -/
theorem C5_prepare_deterministic (decode : List Nat → Option PILImage)
    (resize : PILImage → Nat × Nat → PILImage) (b₁ b₂ : List Nat) (h : b₁ = b₂) :
    prepare decode resize b₁ = prepare decode resize b₂ := by
  rw [h]

/-- C5 witness: the two-run equality at a concrete one-pixel RGB decode. -/
theorem C5_witness :
    ([37] : List Nat) = [37] ∧
    prepare (fun _ => some { mode := .RGB, height := 1, width := 1, px := [[[37, 37, 37]]] })
      resizeConst [37] =
    prepare (fun _ => some { mode := .RGB, height := 1, width := 1, px := [[[37, 37, 37]]] })
      resizeConst [37] :=
  ⟨rfl, C5_prepare_deterministic _ resizeConst [37] [37] rfl⟩

/-! ## Claim C7: the health report -/

/-- C7: `/health` fails with the 500 condition exactly when the model global
is unset; with a loaded model it returns status `healthy`, `model_loaded`
true, and the metrics snapshot with the three `psutil` percentages. -/
theorem C7_health (M : Type) (model : Option M) (cpu mem disk : ℚ) :
    ((health model cpu mem disk).isOk ↔ model.isSome = true) ∧
    (health model cpu mem disk = .error 500 ↔ model = none) ∧
    (∀ m, model = some m →
      health model cpu mem disk =
        .ok { status := "healthy", model_loaded := true,
              system_metrics := { cpu_percent := cpu, memory_percent := mem,
                                  disk_percent := disk } }) := by
  cases model <;> simp [health, get_system_metrics, Except.isOk, Except.toBool]

/-- C7 witness: with no model loaded the report is the 500 failure; with a
model loaded it is the healthy body. -/
theorem C7_witness :
    health (none : Option Unit) 1 2 3 = .error 500 ∧
    health (some ()) 1 2 3 =
      .ok { status := "healthy", model_loaded := true,
            system_metrics := { cpu_percent := 1, memory_percent := 2,
                                disk_percent := 3 } } :=
  ⟨(C7_health Unit none 1 2 3).2.1.mpr rfl, (C7_health Unit (some ()) 1 2 3).2.2 () rfl⟩

/-! ## Claim C8: model loading order and fail-fast startup -/

/-- C8: `load_model_safely` tries `MODEL_PATH` (`.h5`) first and
`MODEL_PATH_KERAS` (`.keras`) second, returning the first artifact that
loads and validates; when the `.h5` attempt does not produce a model and the
`.keras` one does, that one is returned; when neither produces a model,
startup raises and no serving state is reached. -/
theorem C8_load_priority (M : Type) (attempt : String → PathOutcome M) :
    (∀ m, attempt MODEL_PATH = .loaded m → load_model_safely attempt = .ok m) ∧
    (∀ m, (∀ m', attempt MODEL_PATH ≠ .loaded m') →
      attempt MODEL_PATH_KERAS = .loaded m → load_model_safely attempt = .ok m) ∧
    ((∀ m', attempt MODEL_PATH ≠ .loaded m') →
      (∀ m', attempt MODEL_PATH_KERAS ≠ .loaded m') →
      ∃ e, startup attempt = .error e) := by
  refine ⟨?_, ?_, ?_⟩
  · intro m hm
    simp [load_model_safely, loadLoop, hm]
  · intro m h1 h2
    cases hp : attempt MODEL_PATH with
    | missing => simp [load_model_safely, loadLoop, hp, h2]
    | loadFailure msg => simp [load_model_safely, loadLoop, hp, h2]
    | loaded m' => exact absurd hp (h1 m')
  · intro h1 h2
    cases hp : attempt MODEL_PATH with
    | loaded m' => exact absurd hp (h1 m')
    | missing =>
      cases hk : attempt MODEL_PATH_KERAS with
      | loaded m' => exact absurd hk (h2 m')
      | missing => exact ⟨none, by simp [startup, load_model_safely, loadLoop, hp, hk]⟩
      | loadFailure msg => exact ⟨some msg, by simp [startup, load_model_safely, loadLoop, hp, hk]⟩
    | loadFailure msg =>
      cases hk : attempt MODEL_PATH_KERAS with
      | loaded m' => exact absurd hk (h2 m')
      | missing => exact ⟨some msg, by simp [startup, load_model_safely, loadLoop, hp, hk]⟩
      | loadFailure msg' => exact ⟨some msg', by simp [startup, load_model_safely, loadLoop, hp, hk]⟩

/-- C8 witness: with the `.h5` artifact loading successfully the service
serves that model, and with both artifacts missing startup fails. -/
theorem C8_witness :
    load_model_safely (fun p => if p = MODEL_PATH then .loaded () else .missing) = .ok () ∧
    ∃ e, startup (M := Unit) (fun _ => .missing) = .error e :=
  ⟨(C8_load_priority Unit _).1 () (by simp),
    (C8_load_priority Unit _).2.2 (fun m' h => by simp at h) (fun m' h => by simp at h)⟩

/-! ## Rate limiter lemmas -/

/-- When every stored timestamp is strictly within the 60-second window of
the call time, the purge keeps the whole stored list. -/
theorem purge_keeps_fresh (t : ℚ) (w : List ℚ) (h : ∀ x ∈ w, t - x < 60) :
    w.filter (fun x => decide (t - x < 60)) = w :=
  List.filter_eq_self.mpr (fun x hx => decide_eq_true (h x hx))

/-- A call below the limit with a fresh window admits and appends its time. -/
theorem check_rate_limit_admits (t : ℚ) (w : List ℚ)
    (hfresh : ∀ x ∈ w, t - x < 60) (hlen : w.length < RATE_LIMIT) :
    check_rate_limit t w = (true, w ++ [t]) := by
  simp only [check_rate_limit, purge_keeps_fresh t w hfresh]
  rw [if_neg (by omega)]

/-- A call at the limit with a fresh window rejects and records nothing. -/
theorem check_rate_limit_rejects (t : ℚ) (w : List ℚ)
    (hfresh : ∀ x ∈ w, t - x < 60) (hlen : RATE_LIMIT ≤ w.length) :
    check_rate_limit t w = (false, w) := by
  simp only [check_rate_limit, purge_keeps_fresh t w hfresh]
  rw [if_pos hlen]

/-- A batch of calls whose times are all within the 60-second window of the
stored timestamps and of each other, and which fits under the limit, is
admitted call by call, appending every time. -/
theorem runCalls_admits (ts : List ℚ) (w : List ℚ)
    (hlen : w.length + ts.length ≤ RATE_LIMIT)
    (hfresh : ∀ t ∈ ts, ∀ x ∈ w ++ ts, t - x < 60) :
    runCalls ts w = (List.replicate ts.length true, w ++ ts) := by
  induction ts generalizing w with
  | nil => simp [runCalls]
  | cons t rest ih =>
    have hstep : check_rate_limit t w = (true, w ++ [t]) := by
      apply check_rate_limit_admits
      · intro x hx
        exact hfresh t (by simp) x (by simp [hx])
      · simp only [List.length_cons] at hlen
        omega
    have hrest : runCalls rest (w ++ [t]) =
        (List.replicate rest.length true, (w ++ [t]) ++ rest) := by
      apply ih
      · simp at hlen ⊢
        omega
      · intro t' ht' x hx
        rcases List.mem_append.mp hx with hx | hx
        · rcases List.mem_append.mp hx with hx | hx
          · exact hfresh t' (by simp [ht']) x (by simp [hx])
          · rw [List.mem_singleton.mp hx]
            exact hfresh t' (by simp [ht']) t (by simp)
        · exact hfresh t' (by simp [ht']) x (by simp [hx])
    simp [runCalls, hstep, hrest, List.replicate_succ, List.append_assoc]

/-- Splitting a batch of calls: the verdicts concatenate, the final window
threads through. -/
theorem runCalls_append (a b : List ℚ) (w : List ℚ) :
    runCalls (a ++ b) w =
      ((runCalls a w).1 ++ (runCalls b (runCalls a w).2).1,
        (runCalls b (runCalls a w).2).2) := by
  induction a generalizing w with
  | nil => simp [runCalls]
  | cons t rest ih => simp [runCalls, ih]

/-- Every window reachable by a batch of calls from a window under the limit
stays under the limit. -/
theorem runCalls_length_le (ts : List ℚ) (w : List ℚ) (hw : w.length ≤ RATE_LIMIT) :
    (runCalls ts w).2.length ≤ RATE_LIMIT := by
  induction ts generalizing w with
  | nil => simpa [runCalls]
  | cons t rest ih =>
    simp only [runCalls]
    apply ih
    simp only [check_rate_limit]
    have hf := List.length_filter_le (fun x => decide (t - x < 60)) w
    split_ifs with h
    · exact le_trans hf hw
    · simp only [List.length_append, List.length_singleton]
      omega

/-! ## Claim C4: burst of 101, then recovery after the window -/

/-- C4: starting from the empty window, a burst of 101 calls from one
identity all within one second of each other admits exactly the first 100
and rejects exactly the 101st; and any later call made once 60 seconds have
passed since every recorded timestamp is admitted again. -/
theorem C4_burst_and_recovery (ts : List ℚ) (h101 : ts.length = 101)
    (hburst : ∀ x ∈ ts, ∀ y ∈ ts, x - y ≤ 1) :
    (runCalls ts []).1 = List.replicate 100 true ++ [false] ∧
    (∀ t', (∀ x ∈ (runCalls ts []).2, 60 ≤ t' - x) →
      (check_rate_limit t' (runCalls ts []).2).1 = true) := by
  obtain ⟨t, ht⟩ : ∃ t, ts.drop 100 = [t] :=
    List.length_eq_one.mp (by simp [h101])
  have hsplit : ts.take 100 ++ [t] = ts := by rw [← ht, List.take_append_drop]
  have htake_len : (ts.take 100).length = 100 := by simp [h101]
  have htake_mem : ∀ x ∈ ts.take 100, x ∈ ts := fun x hx => List.take_subset _ _ hx
  have ht_mem : t ∈ ts := List.drop_subset 100 ts (by rw [ht]; simp)
  have hfirst : runCalls (ts.take 100) [] = (List.replicate 100 true, ts.take 100) := by
    have h := runCalls_admits (ts.take 100) []
      (by simp [htake_len, RATE_LIMIT])
      (by
        intro a ha x hx
        simp only [List.nil_append] at hx
        have := hburst a (htake_mem a ha) x (htake_mem x hx)
        linarith)
    simpa [htake_len] using h
  have hlast : check_rate_limit t (ts.take 100) = (false, ts.take 100) := by
    apply check_rate_limit_rejects
    · intro x hx
      have := hburst t ht_mem x (htake_mem x hx)
      linarith
    · rw [htake_len]
      exact Nat.le.refl
  constructor
  · conv_lhs => rw [← hsplit]
    rw [runCalls_append, hfirst]
    simp [runCalls, hlast]
  · intro t' h60
    have hempty : (runCalls ts []).2.filter (fun x => decide (t' - x < 60)) = [] := by
      rw [List.filter_eq_nil_iff]
      intro x hx
      simp only [decide_eq_true_eq, not_lt]
      linarith [h60 x hx]
    simp [check_rate_limit, hempty, RATE_LIMIT]

/-- C4 witness: 101 calls all at clock reading 0 from the empty window yield
100 admissions followed by one rejection. -/
theorem C4_witness :
    (List.replicate 101 (0:ℚ)).length = 101 ∧
    (runCalls (List.replicate 101 (0:ℚ)) []).1 = List.replicate 100 true ++ [false] :=
  ⟨by simp, (C4_burst_and_recovery (List.replicate 101 (0:ℚ)) (by simp)
    (fun x hx y hy => by
      rw [List.eq_of_mem_replicate hx, List.eq_of_mem_replicate hy]
      norm_num)).1⟩

/-! ## Claim C9: the per-call window invariant -/

/-- After one call on a window at or under the limit: the stored count stays
at or under the limit, every stored timestamp is strictly within 60 seconds
of the call time, and a rejection never increased the stored count. -/
theorem check_rate_limit_post (now : ℚ) (w : List ℚ) (hw : w.length ≤ RATE_LIMIT) :
    (check_rate_limit now w).2.length ≤ RATE_LIMIT ∧
    (∀ x ∈ (check_rate_limit now w).2, now - x < 60) ∧
    ((check_rate_limit now w).1 = false →
      (check_rate_limit now w).2.length ≤ w.length) := by
  simp only [check_rate_limit]
  have hf := List.length_filter_le (fun x => decide (now - x < 60)) w
  have hmem : ∀ x ∈ w.filter (fun x => decide (now - x < 60)), now - x < 60 := by
    intro x hx
    exact of_decide_eq_true (List.mem_filter.mp hx).2
  split_ifs with h
  · exact ⟨le_trans hf hw, hmem, fun _ => hf⟩
  · refine ⟨?_, ?_, by simp⟩
    · simp only [List.length_append, List.length_singleton]
      omega
    · intro x hx
      rcases List.mem_append.mp hx with hx | hx
      · exact hmem x hx
      · rw [List.mem_singleton.mp hx]
        simp

/-- C9: after any call made on any window reachable from the identity's
creation (the empty list), the stored window holds at most `RATE_LIMIT`
timestamps, each strictly within 60 seconds of the call time, and a rejected
call never increased the stored count. -/
theorem C9_post_call_invariant (ts : List ℚ) (now : ℚ) :
    (check_rate_limit now (runCalls ts []).2).2.length ≤ RATE_LIMIT ∧
    (∀ x ∈ (check_rate_limit now (runCalls ts []).2).2, now - x < 60) ∧
    ((check_rate_limit now (runCalls ts []).2).1 = false →
      (check_rate_limit now (runCalls ts []).2).2.length ≤ (runCalls ts []).2.length) :=
  check_rate_limit_post now (runCalls ts []).2 (runCalls_length_le ts [] (by simp))

/-- C9 witness: the count bound after a call at clock 5 on the window left by
the empty call history. -/
theorem C9_witness :
    (check_rate_limit 5 (runCalls [] []).2).2.length ≤ RATE_LIMIT :=
  (C9_post_call_invariant [] 5).1

/-! ## Claim C3: the preprocessing output shape -/

/-- A decodable 1×1 grayscale image (PIL mode `L`), as produced by decoding a
valid grayscale PNG: a validator-accepted, decodable input. -/
def grayPixel : PILImage := { mode := .L, height := 1, width := 1, px := [[[0]]] }

/-- A decodable 1×1 RGB image, for contrast. -/
def rgbPixel : PILImage := { mode := .RGB, height := 1, width := 1, px := [[[0, 0, 0]]] }

set_option maxRecDepth 4000 in
/-- C3 fails on the code: `preprocess_image` never converts the decoded image
to RGB, so for a decodable grayscale input the returned array is
3-dimensional, `(1, 128, 128)`, not the claimed `(batch=1, height=128,
width=128, channel=3)`; an RGB input does produce the claimed 4-dimensional
shape.  (PIL `resize` keeps the image mode, so the resampling filter cannot
repair the missing channel axis — `resizeConst` is a mode- and
shape-correct stand-in for it.) -/
theorem C3_gray_image_not_4d :
    (preprocess_image resizeConst grayPixel).shape = [1, 128, 128] ∧
    [1, 128, 128] ≠ [1, 128, 128, 3] ∧
    (preprocess_image resizeConst rgbPixel).shape = [1, 128, 128, 3] := by
  exact ⟨by decide, by decide, by decide⟩

/-! ## Claim C6: low confidence is a success with an advisory warning -/

/-- C6: when the top-1 confidence is strictly below the threshold, `/predict`
still returns the success body carrying the same `predicted_class`,
`confidence`, `top_3_predictions`, `all_predictions` and `processing_time`
fields as the confident branch, plus the advisory warning string; low
confidence never produces an error response. -/
theorem C6_low_confidence_is_success (v : List ℚ) (pt : ℚ)
    (pc : Option String) (conf : ℚ) (rest : List (Option String × ℚ))
    (htop : get_top_predictions v 3 = (pc, conf) :: rest)
    (hlow : conf < CONFIDENCE_THRESHOLD) :
    predictRespond v pt =
      .ok { predicted_class := pc, confidence := conf,
            top_3_predictions := (pc, conf) :: rest,
            all_predictions := all_predictions v,
            processing_time := pt,
            warning := some LOW_CONFIDENCE_WARNING } := by
  simp only [predictRespond, htop]
  simp [hlow]

/-- C6 witness: the all-zero probability vector has top-1 confidence 0, below
the threshold, and `/predict` answers with the success body plus warning. -/
theorem C6_witness :
    (0:ℚ) < CONFIDENCE_THRESHOLD ∧
    predictRespond (List.replicate 25 (0:ℚ)) 0 =
      .ok { predicted_class := some "Tomato___healthy", confidence := 0,
            top_3_predictions :=
              [(some "Tomato___healthy", 0),
               (some "Tomato___Tomato_mosaic_virus", 0),
               (some "Tomato___Tomato_Yellow_Leaf_Curl_Virus", 0)],
            all_predictions := all_predictions (List.replicate 25 (0:ℚ)),
            processing_time := 0,
            warning := some LOW_CONFIDENCE_WARNING } :=
  ⟨by decide,
    C6_low_confidence_is_success (List.replicate 25 (0:ℚ)) 0
      (some "Tomato___healthy") 0
      [(some "Tomato___Tomato_mosaic_virus", 0),
       (some "Tomato___Tomato_Yellow_Leaf_Curl_Virus", 0)]
      (by decide) (by decide)⟩

/-! ## Argsort lemmas -/

/-- The strict value-then-index order: the order in which indices appear in
the ascending stable argsort. -/
def argsortLT (v : List ℚ) (i j : Nat) : Prop :=
  v.getD i 0 < v.getD j 0 ∨ (v.getD i 0 = v.getD j 0 ∧ i < j)

theorem argsort_perm (v : List ℚ) : (argsort v).Perm (List.range v.length) :=
  List.perm_insertionSort _ _

theorem argsort_length (v : List ℚ) : (argsort v).length = v.length := by
  simp [argsort, List.length_insertionSort]

theorem argsort_nodup (v : List ℚ) : (argsort v).Nodup :=
  ((argsort_perm v).nodup_iff).mpr (List.nodup_range _)

theorem argsort_sorted (v : List ℚ) : (argsort v).Pairwise (argsortRel v) :=
  List.sorted_insertionSort _ _

theorem mem_argsort (v : List ℚ) {i : Nat} : i ∈ argsort v ↔ i < v.length := by
  rw [(argsort_perm v).mem_iff, List.mem_range]

/-- Distinct entries of the argsort are strictly ordered by value-then-index. -/
theorem argsort_pairwise_lt (v : List ℚ) : (argsort v).Pairwise (argsortLT v) := by
  refine ((argsort_sorted v).and (argsort_nodup v)).imp ?_
  rintro a b ⟨h | ⟨he, hle⟩, hne⟩
  · exact .inl h
  · exact .inr ⟨he, lt_of_le_of_ne hle hne⟩

/-- The selected top indices are strictly descending in value-then-index
order. -/
theorem topIndices_pairwise (v : List ℚ) :
    (topIndices v 3).Pairwise (fun i j => argsortLT v j i) := by
  unfold topIndices
  rw [List.pairwise_reverse]
  exact (argsort_pairwise_lt v).sublist (List.drop_sublist _ _)

theorem topIndices_length (v : List ℚ) (h3 : 3 ≤ v.length) :
    (topIndices v 3).length = 3 := by
  unfold topIndices
  rw [List.length_reverse, List.length_drop, argsort_length]
  omega

theorem mem_topIndices_lt (v : List ℚ) : ∀ i ∈ topIndices v 3, i < v.length := by
  intro i hi
  unfold topIndices at hi
  rw [List.mem_reverse] at hi
  exact (mem_argsort v).mp (List.drop_subset _ _ hi)

/-- Every index not selected is strictly below every selected index in the
value-then-index order. -/
theorem topIndices_selected (v : List ℚ) :
    ∀ j < v.length, j ∉ topIndices v 3 → ∀ i ∈ topIndices v 3, argsortLT v j i := by
  intro j hj hnot i hi
  unfold topIndices at hnot hi
  rw [List.mem_reverse] at hnot hi
  have hj' : j ∈ argsort v := (mem_argsort v).mpr hj
  have hsplit := List.take_append_drop (v.length - 3) (argsort v)
  have hjtake : j ∈ (argsort v).take (v.length - 3) := by
    rcases List.mem_append.mp (by rw [hsplit]; exact hj') with h | h
    · exact h
    · exact absurd h hnot
  have hp := argsort_pairwise_lt v
  rw [← hsplit, List.pairwise_append] at hp
  exact hp.2.2 j hjtake i hi

/-! ## Claim C1: the composed top-3 -/

/-- C1 counterexample: on the probability vector with probability 1 at index
0 and 0 everywhere else, the code returns the zero-probability entries of
indices 24 and 23 — the HIGHEST tied indices, in descending index order —
whereas the claim's lower-index tie-breaking demands indices 1 and 2
(`Apple___Black_rot`, `Apple___Cedar_apple_rust`). -/
theorem C1_counterexample :
    get_top_predictions (1 :: List.replicate 24 (0:ℚ)) 3 =
      [(some "Apple___Apple_scab", 1), (some "Tomato___healthy", 0),
       (some "Tomato___Tomato_mosaic_virus", 0)] ∧
    get_top_predictions (1 :: List.replicate 24 (0:ℚ)) 3 ≠
      [(some "Apple___Apple_scab", 1), (some "Apple___Black_rot", 0),
       (some "Apple___Cedar_apple_rust", 0)] := by
  exact ⟨by decide, by decide⟩

/-- C1 (amended): for every probability vector with at least 3 entries and
k = 3, `get_top_predictions` returns exactly 3 entries — the top-3 indices
mapped to their labels and probabilities — ordered by non-increasing
confidence, with ties among equal probabilities broken in favor of the
HIGHER index, both in which indices are selected and in how they are
ordered (under the stable model of `np.argsort`). -/
theorem C1_top3_characterization (v : List ℚ) (h3 : 3 ≤ v.length) :
    (get_top_predictions v 3).length = 3 ∧
    get_top_predictions v 3 =
      (topIndices v 3).map (fun idx => (DISEASE_CLASSES idx, v.getD idx 0)) ∧
    (get_top_predictions v 3).Pairwise (fun p q => q.2 ≤ p.2) ∧
    (∀ i ∈ topIndices v 3, i < v.length) ∧
    (topIndices v 3).Pairwise
      (fun i j => v.getD j 0 < v.getD i 0 ∨ (v.getD j 0 = v.getD i 0 ∧ j < i)) ∧
    (∀ j < v.length, j ∉ topIndices v 3 → ∀ i ∈ topIndices v 3,
      v.getD j 0 < v.getD i 0 ∨ (v.getD j 0 = v.getD i 0 ∧ j < i)) := by
  refine ⟨?_, rfl, ?_, mem_topIndices_lt v, topIndices_pairwise v, topIndices_selected v⟩
  · rw [get_top_predictions, List.length_map, topIndices_length v h3]
  · rw [get_top_predictions, List.pairwise_map]
    refine (topIndices_pairwise v).imp ?_
    rintro a b (h | ⟨he, _⟩)
    · exact le_of_lt h
    · exact le_of_eq he

/-- C1 witness: the characterization applied to the all-zero vector of
length 25. -/
theorem C1_witness :
    3 ≤ (List.replicate 25 (0:ℚ)).length ∧
    (get_top_predictions (List.replicate 25 (0:ℚ)) 3).length = 3 :=
  ⟨by simp, (C1_top3_characterization (List.replicate 25 (0:ℚ)) (by simp)).1⟩

end PlantDisease
